import Mathlib

/-!
A shallow embedding of the device lifecycle dashboard (src/dashboard.py):
the data loader `load_data`, the session selection state, the sidebar
filter pipeline of `main`, and the headline metrics.  Datasets are lists
of records, durations are rationals, and the session-state mutations of
the Streamlit script are explicit state-passing functions.
-/

/-- A parsed calendar date as produced by the `pd.to_datetime` step: the
absolute day number together with its calendar year. -/
structure PDate where
  days : Int
  year : Int
deriving DecidableEq

/-- One row of the raw spreadsheet as read by `pd.read_excel`, before
cleaning: a leading unnamed index column followed by the semantic columns.
The Duration column is optional here so that inputs that do not supply it
can be examined. -/
structure RawRow where
  indexCol : Int
  deviceName : String
  brand : String
  category : String
  startDate : PDate
  endDate : PDate
  duration : Option ℚ
  reason : String
deriving DecidableEq

/-- A cleaned row after `load_data` (src/dashboard.py lines 106-117): the
unnamed index column is dropped, the two date columns are parsed, and the
Start Year and End Year columns are derived from them.  The Duration
column, when present, is carried over untouched. -/
structure LoadedRow where
  deviceName : String
  brand : String
  category : String
  startDate : PDate
  endDate : PDate
  duration : Option ℚ
  startYear : Int
  endYear : Int
  reason : String
deriving DecidableEq

/-- The per-row cleaning performed by `load_data` (lines 109-115): drop
the index column, keep the parsed dates, derive the year columns.  No
duration is ever computed; the Duration column is passed through as-is. -/
def load_row (r : RawRow) : LoadedRow :=
  { deviceName := r.deviceName
    brand := r.brand
    category := r.category
    startDate := r.startDate
    endDate := r.endDate
    duration := r.duration
    startYear := r.startDate.year
    endYear := r.endDate.year
    reason := r.reason }

/-- `load_data` (lines 101-121): `none` as input models the absent source
file, on which `pd.read_excel` raises `FileNotFoundError` and the handler
returns `None` after showing a blocking error message.  On a present file
the rows are cleaned by `load_row`. -/
def load_data (source : Option (List RawRow)) : Option (List LoadedRow) :=
  match source with
  | none => none
  | some rows => some (rows.map load_row)

/-- The duration the spec says the loader computes when the Duration
column is not supplied: (End − Start) in days divided by 365.25. -/
def specDurationYears (r : RawRow) : ℚ :=
  ((r.endDate.days - r.startDate.days : Int) : ℚ) / (1461 / 4 : ℚ)

/-- Modelled from the spec: the Duration value §4.1 attributes to the
loader output — the supplied value when present, otherwise the computed
year fraction.  Used to compare the spec wording with `load_row`. -/
def spec_loaded_duration (r : RawRow) : Option ℚ :=
  match r.duration with
  | some d => some d
  | none => some (specDurationYears r)

/-- A record of the runtime dataset used by `main`: the columns the
filter pipeline and the metrics read.  Here Duration is total, as `main`
unconditionally reads the Duration column of the loaded frame. -/
structure Device where
  deviceName : String
  brand : String
  category : String
  startDate : PDate
  endDate : PDate
  duration : ℚ
  reason : String
deriving DecidableEq

/-- The per-session selection state (`st.session_state`, lines 93-99 and
144-146): the treemap/dropdown category selection, the brand selection
and the duration slider range. -/
structure SessionState where
  selected_category : Option String
  selected_brand : String
  duration_range : ℚ × ℚ
deriving DecidableEq

/-- `float(df['Duration'].min())` (lines 146 and 217): the least duration
observed in the dataset.  The empty-dataset value is arbitrary (pandas
would yield NaN); claims about it assume a nonempty dataset. -/
def durMin (df : List Device) : ℚ :=
  match df.map (fun r => r.duration) with
  | [] => 0
  | x :: xs => xs.foldl min x

/-- `float(df['Duration'].max())` (lines 146 and 217). -/
def durMax (df : List Device) : ℚ :=
  match df.map (fun r => r.duration) with
  | [] => 0
  | x :: xs => xs.foldl max x

/-- The default selection state: lines 94-99 set the category to `None`
and the brand to the all-brands sentinel, and line 146 initializes the
duration range to the full observed range of the dataset. -/
def defaultState (df : List Device) : SessionState :=
  { selected_category := none
    selected_brand := "All Brands"
    duration_range := (durMin df, durMax df) }

/-- The filter pipeline of `main` (lines 234-243): a brand filter when
the brand selection is not the sentinel, a category filter when the
category selection is set and not the sentinel, then the duration band. -/
def apply_filters (df : List Device) (s : SessionState) : List Device :=
  let filtered1 : List Device :=
    if s.selected_brand ≠ "All Brands" then
      df.filter (fun r => r.brand == s.selected_brand)
    else df
  let filtered2 : List Device :=
    match s.selected_category with
    | some c =>
        if c ≠ "All Categories" then
          filtered1.filter (fun r => r.category == c)
        else filtered1
    | none => filtered1
  filtered2.filter (fun r =>
    decide (s.duration_range.1 ≤ r.duration) &&
    decide (r.duration ≤ s.duration_range.2))

/-- The spec predicate of §4.4 for one record: the three conjunctive
clauses on brand, category and duration. -/
def specPred (s : SessionState) (r : Device) : Prop :=
  (s.selected_brand = "All Brands" ∨ r.brand = s.selected_brand) ∧
  (s.selected_category = none ∨ s.selected_category = some r.category) ∧
  (s.duration_range.1 ≤ r.duration ∧ r.duration ≤ s.duration_range.2)

instance (s : SessionState) (r : Device) : Decidable (specPred s r) := by
  unfold specPred; infer_instance

/-- The headline metrics of `main` (lines 280-311): device count, mean
duration, distinct brand count and distinct category count of the
filtered frame. -/
structure Summary where
  count : Nat
  meanDuration : ℚ
  uniqueBrands : Nat
  uniqueCategories : Nat
deriving DecidableEq

/-- `len`, `.mean()`, `.nunique()`, `.nunique()` over the filtered frame
(lines 284, 289, 297, 305). -/
def summarize (df : List Device) : Summary :=
  { count := df.length
    meanDuration := (df.map (fun r => r.duration)).sum / (df.length : ℚ)
    uniqueBrands := ((df.map (fun r => r.brand)).dedup).length
    uniqueCategories := ((df.map (fun r => r.category)).dedup).length }

/-- The head of `main` (lines 138-146 and 234-311) at the dataset level:
when the loader returns `None` the function returns at line 142 with no
filtering or aggregation; otherwise the filters are applied and, when the
filtered frame is nonempty, the metrics are computed (lines 275-277 break
off before the metrics on an empty filtered frame). -/
def dashboard_main (loaded : Option (List Device)) (s : SessionState) :
    Option (List Device × Option Summary) :=
  match loaded with
  | none => none
  | some df =>
      let filtered := apply_filters df s
      some (filtered, if filtered.isEmpty then none else some (summarize filtered))

/-- The brand mutation (line 192): store the selectbox value. -/
def set_brand (s : SessionState) (b : String) : SessionState :=
  { s with selected_brand := b }

/-- The category write-back after the dropdown renders (lines 211-214):
a non-sentinel value is stored; the sentinel clears the selection unless
the `_from_treemap` attribute is present. -/
def set_category (s : SessionState) (v : String) (from_treemap : Bool) :
    SessionState :=
  if v ≠ "All Categories" then { s with selected_category := some v }
  else if ¬ from_treemap then { s with selected_category := none }
  else s

/-- Modelled from the spec: `setDurationRange(lo, hi)` of §4.2/§7.  The
repository exposes the duration range only through the slider widget
(lines 218-225), whose bounds enforcement lives in the UI framework, not
in src/; the spec's validating mutator is therefore modelled from its
words: a range with lo ≤ hi inside the observed bounds is stored, any
other call is rejected and the prior value retained. -/
def setDurationRange (df : List Device) (s : SessionState) (lo hi : ℚ) :
    SessionState :=
  if lo ≤ hi ∧ durMin df ≤ lo ∧ hi ≤ durMax df then
    { s with duration_range := (lo, hi) }
  else s

/-- Modelled from the spec: `selectFromChart(category)` of §4.2 — the
chart-click entry point.  The repository has no chart-click handler in
src/ (the treemap the comments mention is absent); per §4.2/§4.3 the
click writes the clicked category to the single category field. -/
def selectFromChart (s : SessionState) (c : String) : SessionState :=
  { s with selected_category := some c }

/-- The clear-filters button (lines 228-232): all three fields are reset
in one handler before the rerun — category to `None`, brand to the
sentinel, duration range to the observed full range. -/
def clearAll (df : List Device) (_s : SessionState) : SessionState :=
  { selected_category := none
    selected_brand := "All Brands"
    duration_range := (durMin df, durMax df) }

/-- Insertion into a sorted list of strings, for the `sorted(...)` call. -/
def insertSorted (x : String) : List String → List String
  | [] => [x]
  | y :: ys => if x ≤ y then x :: y :: ys else y :: insertSorted x ys

/-- Insertion sort on strings, modelling Python `sorted`. -/
def sortStrings : List String → List String
  | [] => []
  | x :: xs => insertSorted x (sortStrings xs)

/-- `['All Categories'] + sorted(df['Device Category'].unique().tolist())`
(line 195). -/
def all_categories (df : List Device) : List String :=
  "All Categories" :: sortStrings ((df.map (fun r => r.category)).dedup)

/-- The dropdown default index (lines 197-202): the index of the stored
category in `all_categories` when the stored value is truthy (a Python
`if x and ...` test, so the empty string counts as unset) and occurs in
the dataset's categories; otherwise 0, the sentinel. -/
def default_category_index (df : List Device) (s : SessionState) : Nat :=
  match s.selected_category with
  | some c =>
      if c ≠ "" ∧ c ∈ (df.map (fun r => r.category)).dedup then
        (all_categories df).indexOf c
      else 0
  | none => 0

/-- The value the category selectbox displays on a rerun with no new user
input (lines 204-209): the option at the default index. -/
def dropdown_displayed (df : List Device) (s : SessionState) : String :=
  (all_categories df).getD (default_category_index df s) "All Categories"

/-- One dropdown render-and-write-back cycle (lines 204-214) with no new
user input: the displayed value is written back through `set_category`.
Nothing in the repository ever sets the `_from_treemap` attribute, so the
`hasattr` test of line 213 is always false. -/
def category_dropdown_step (df : List Device) (s : SessionState) :
    SessionState :=
  set_category s (dropdown_displayed df s) false

/-! ### Helper lemmas -/

theorem foldl_min_le_init (l : List ℚ) (a : ℚ) : l.foldl min a ≤ a := by
  induction l generalizing a with
  | nil => exact le_refl a
  | cons x xs ih => exact le_trans (ih (min a x)) (min_le_left a x)

theorem foldl_min_le_mem (l : List ℚ) (a : ℚ) (x : ℚ) (hx : x ∈ l) :
    l.foldl min a ≤ x := by
  induction l generalizing a with
  | nil => cases hx
  | cons y ys ih =>
      rcases List.mem_cons.mp hx with h | h
      · subst h
        exact le_trans (foldl_min_le_init ys (min a x)) (min_le_right a x)
      · exact ih (min a y) h

theorem init_le_foldl_max (l : List ℚ) (a : ℚ) : a ≤ l.foldl max a := by
  induction l generalizing a with
  | nil => exact le_refl a
  | cons x xs ih => exact le_trans (le_max_left a x) (ih (max a x))

theorem mem_le_foldl_max (l : List ℚ) (a : ℚ) (x : ℚ) (hx : x ∈ l) :
    x ≤ l.foldl max a := by
  induction l generalizing a with
  | nil => cases hx
  | cons y ys ih =>
      rcases List.mem_cons.mp hx with h | h
      · subst h
        exact le_trans (le_max_right a x) (init_le_foldl_max ys (max a x))
      · exact ih (max a y) h

theorem durMin_le_of_mem (df : List Device) (r : Device) (hr : r ∈ df) :
    durMin df ≤ r.duration := by
  unfold durMin
  cases df with
  | nil => cases hr
  | cons d rest =>
      simp only [List.map_cons]
      rcases List.mem_cons.mp hr with h | h
      · subst h; exact foldl_min_le_init _ _
      · exact foldl_min_le_mem _ _ _ (List.mem_map_of_mem _ h)

theorem le_durMax_of_mem (df : List Device) (r : Device) (hr : r ∈ df) :
    r.duration ≤ durMax df := by
  unfold durMax
  cases df with
  | nil => cases hr
  | cons d rest =>
      simp only [List.map_cons]
      rcases List.mem_cons.mp hr with h | h
      · subst h; exact init_le_foldl_max _ _
      · exact mem_le_foldl_max _ _ _ (List.mem_map_of_mem _ h)

theorem mem_insertSorted (x a : String) (l : List String) :
    a ∈ insertSorted x l ↔ a = x ∨ a ∈ l := by
  induction l with
  | nil => simp [insertSorted]
  | cons y ys ih =>
      unfold insertSorted
      by_cases h : x ≤ y
      · simp [h]
      · simp only [if_neg h, List.mem_cons, ih]
        tauto

theorem mem_sortStrings (a : String) (l : List String) :
    a ∈ sortStrings l ↔ a ∈ l := by
  induction l with
  | nil => simp [sortStrings]
  | cons x xs ih =>
      unfold sortStrings
      rw [mem_insertSorted, ih, List.mem_cons]

/-! ### Claims -/

/-- C7: `clearAll()` resets all three selection-state fields at once, so
the state immediately afterwards is exactly the default state, whatever
mutations preceded it. -/
theorem clearAll_resets_to_default (df : List Device) (s : SessionState) :
    clearAll df s = defaultState df := rfl

/-- C10: for every dataset and selection state the filtered view is an
order-preserving subsequence of the dataset — filtering never reorders,
duplicates, or invents records. -/
theorem filter_sublist_of_dataset (df : List Device) (s : SessionState) :
    (apply_filters df s).Sublist df := by
  unfold apply_filters
  refine List.Sublist.trans (List.filter_sublist _) ?_
  have h1 : (if s.selected_brand ≠ "All Brands" then
      df.filter (fun r => r.brand == s.selected_brand) else df).Sublist df := by
    split
    · exact List.filter_sublist df
    · exact List.Sublist.refl df
  cases s.selected_category with
  | none => exact h1
  | some c =>
      simp only
      split
      · exact List.Sublist.trans (List.filter_sublist _) h1
      · exact h1

/-- Concrete example data: the two-record dataset of spec §8. -/
def pd0 : PDate := ⟨0, 2014⟩

/-- First example record: brand A, category Phone, duration 2.0. -/
def devA : Device :=
  { deviceName := "Phone One", brand := "A", category := "Phone",
    startDate := pd0, endDate := pd0, duration := 2, reason := "servers off" }

/-- Second example record: brand B, category Tablet, duration 5.0. -/
def devB : Device :=
  { deviceName := "Tab Two", brand := "B", category := "Tablet",
    startDate := pd0, endDate := pd0, duration := 5, reason := "no updates" }

/-- The two-record example dataset. -/
def df8 : List Device := [devA, devB]

/-- Brand filter set to A, the other two fields at their defaults for
`df8` (category unset, duration range the observed (2, 5)). -/
def stateA : SessionState :=
  { selected_category := none, selected_brand := "A", duration_range := (2, 5) }

/-- C1: every record the filter pipeline keeps satisfies the three
conjunctive predicates of §4.4, and every dataset record it drops
violates at least one; `hvalid` states that the selection state is valid,
i.e. its category field holds a category or is unset, never the sentinel
string itself. -/
theorem filter_matches_spec_predicate (df : List Device) (s : SessionState)
    (hvalid : s.selected_category ≠ some "All Categories") (r : Device) :
    r ∈ apply_filters df s ↔ r ∈ df ∧ specPred s r := by
  unfold apply_filters specPred
  cases hcat : s.selected_category with
  | none =>
      by_cases hb : s.selected_brand = "All Brands"
      · simp only [hb, ne_eq, not_true_eq_false, if_false, List.mem_filter,
          Bool.and_eq_true, decide_eq_true_iff]
        tauto
      · simp only [ne_eq, hb, not_false_eq_true, if_true, List.mem_filter,
          Bool.and_eq_true, decide_eq_true_iff, beq_iff_eq]
        tauto
  | some c =>
      have hc : c ≠ "All Categories" := fun h => hvalid (by rw [hcat, h])
      by_cases hb : s.selected_brand = "All Brands"
      · simp only [hb, ne_eq, not_true_eq_false, if_false, hc,
          not_false_eq_true, if_true, List.mem_filter, Bool.and_eq_true,
          decide_eq_true_iff, beq_iff_eq, Option.some.injEq]
        tauto
      · simp only [ne_eq, hb, not_false_eq_true, if_true, hc,
          List.mem_filter, Bool.and_eq_true, decide_eq_true_iff, beq_iff_eq,
          Option.some.injEq]
        tauto

/-- Witness for C1 at the concrete dataset `df8` and state `stateA`. -/
theorem filter_matches_spec_predicate_witness :
    devA ∈ apply_filters df8 stateA ↔ devA ∈ df8 ∧ specPred stateA devA :=
  filter_matches_spec_predicate df8 stateA (by decide) devA

/-- C6: the default selection state is the identity filter — the brand
sentinel disables the brand filter, the unset category disables the
category filter, and every record's duration lies in the observed full
range, so the duration band keeps everything. -/
theorem default_state_identity_filter (df : List Device) :
    apply_filters df (defaultState df) = df := by
  unfold apply_filters defaultState
  simp only [ne_eq, not_true_eq_false, if_false]
  exact List.filter_eq_self.mpr (fun r hr => by
    simp [durMin_le_of_mem df r hr, le_durMax_of_mem df r hr])

/-- C3: an invalid duration range — lo above hi, or either endpoint
outside the observed bounds — is rejected and the prior range retained. -/
theorem setDurationRange_rejects_invalid (df : List Device)
    (s : SessionState) (lo hi : ℚ)
    (hbad : hi < lo ∨ lo < durMin df ∨ durMax df < lo ∨
            hi < durMin df ∨ durMax df < hi) :
    setDurationRange df s lo hi = s := by
  unfold setDurationRange
  rw [if_neg]
  rintro ⟨h1, h2, h3⟩
  rcases hbad with h | h | h | h | h <;> linarith

/-- Witness for C3: `setDurationRange(lo=10, hi=1)` on the example
dataset leaves the state unchanged. -/
theorem setDurationRange_rejects_invalid_witness :
    setDurationRange df8 stateA 10 1 = stateA :=
  setDurationRange_rejects_invalid df8 stateA 10 1 (Or.inl (by norm_num))

/-- C4: with the source file absent the loader yields `None` (no sample
data is synthesized in its place) and `main` returns at once, so no
filtering or aggregation is computed. -/
theorem missing_source_halts_pipeline (s : SessionState) :
    load_data none = none ∧ dashboard_main none s = none :=
  ⟨rfl, rfl⟩

/-- Counterexample for C5: on an input row whose Duration column is
absent, `load_row` leaves the duration absent, whereas the spec's wording
says the loader computes (End − Start) in days / 365.25 — here 366 days,
i.e. 488/487 years. -/
def rawNoDuration : RawRow :=
  { indexCol := 0, deviceName := "D", brand := "B", category := "C",
    startDate := ⟨0, 2014⟩, endDate := ⟨366, 2015⟩, duration := none,
    reason := "r" }

/-- C5 counterexample theorem: the loader passes the absent duration
through instead of computing the year fraction the claim describes. -/
theorem load_duration_not_computed_counterexample :
    (load_row rawNoDuration).duration = none ∧
    spec_loaded_duration rawNoDuration = some (488 / 487) ∧
    (load_row rawNoDuration).duration ≠ spec_loaded_duration rawNoDuration := by
  refine ⟨rfl, ?_, ?_⟩
  · show some (specDurationYears rawNoDuration) = some (488 / 487)
    norm_num [specDurationYears, rawNoDuration]
  · show (none : Option ℚ) ≠ some (specDurationYears rawNoDuration)
    exact fun h => Option.noConfusion h

/-- C5 amended: on success the loader strips the leading index column
(its output does not depend on it), keeps the parsed dates and derives
the year columns from them, and passes the Duration column through
unchanged — it never computes a duration. -/
theorem load_row_passthrough (r : RawRow) (i : Int) :
    (load_row r).duration = r.duration ∧
    (load_row r).startDate = r.startDate ∧
    (load_row r).endDate = r.endDate ∧
    (load_row r).startYear = r.startDate.year ∧
    (load_row r).endYear = r.endDate.year ∧
    load_row { r with indexCol := i } = load_row r :=
  ⟨rfl, rfl, rfl, rfl, rfl, rfl⟩

/-- C8: on the two-record dataset of §8, filtering with brand A and the
other fields at defaults keeps exactly the first record, and the metrics
over that result are count 1, mean duration 2.0, one brand, one
category. -/
theorem concrete_filter_and_summary_example :
    apply_filters df8 { defaultState df8 with selected_brand := "A" } = [devA] ∧
    summarize [devA] =
      { count := 1, meanDuration := 2, uniqueBrands := 1, uniqueCategories := 1 } := by
  refine ⟨by decide, ?_⟩
  simp [summarize, devA, Summary.mk.injEq]

/-- C9: each single-field mutator leaves the two selection-state fields
it does not name unchanged, for every starting state and argument. -/
theorem mutators_frame_effect (df : List Device) (s : SessionState)
    (b v c : String) (ft : Bool) (lo hi : ℚ) :
    ((set_brand s b).selected_category = s.selected_category ∧
     (set_brand s b).duration_range = s.duration_range) ∧
    ((set_category s v ft).selected_brand = s.selected_brand ∧
     (set_category s v ft).duration_range = s.duration_range) ∧
    ((setDurationRange df s lo hi).selected_brand = s.selected_brand ∧
     (setDurationRange df s lo hi).selected_category = s.selected_category) ∧
    ((selectFromChart s c).selected_brand = s.selected_brand ∧
     (selectFromChart s c).duration_range = s.duration_range) := by
  refine ⟨⟨rfl, rfl⟩, ?_, ?_, ⟨rfl, rfl⟩⟩
  · unfold set_category
    split
    · exact ⟨rfl, rfl⟩
    · split
      · exact ⟨rfl, rfl⟩
      · exact ⟨rfl, rfl⟩
  · unfold setDurationRange
    split
    · exact ⟨rfl, rfl⟩
    · exact ⟨rfl, rfl⟩

/-- A device whose category is the empty string, the Python-falsy value
that defeats the truthiness test of line 197. -/
def devEmptyCat : Device :=
  { deviceName := "E", brand := "B", category := "",
    startDate := pd0, endDate := pd0, duration := 1, reason := "r" }

/-- One-record dataset containing the empty-string category. -/
def dfEmptyCat : List Device := [devEmptyCat]

/-- A fresh session state with nothing selected. -/
def state0 : SessionState :=
  { selected_category := none, selected_brand := "All Brands",
    duration_range := (1, 1) }

/-- Counterexample for C2: the empty string is a category present in the
dataset, yet after `selectFromChart("")` the dropdown still displays the
sentinel (line 197 tests the stored value for Python truthiness, and `""`
is falsy), and the write-back of lines 211-214 then clears the
chart-originated selection on the same cycle. -/
theorem chart_selection_counterexample :
    "" ∈ dfEmptyCat.map (fun r => r.category) ∧
    dropdown_displayed dfEmptyCat (selectFromChart state0 "") = "All Categories" ∧
    (category_dropdown_step dfEmptyCat (selectFromChart state0 "")).selected_category = none := by
  refine ⟨by decide, by decide, by decide⟩

/-- C2 amended: after `selectFromChart(c)` for a non-empty category `c`
present in the dataset and distinct from the sentinel string, the
dropdown displays `c` on the next render, and the dropdown's write-back
on the same cycle leaves the chart-originated selection in place. -/
theorem chart_selection_reflected_in_dropdown (df : List Device)
    (s : SessionState) (c : String) (hne : c ≠ "")
    (hsent : c ≠ "All Categories")
    (hmem : c ∈ df.map (fun r => r.category)) :
    dropdown_displayed df (selectFromChart s c) = c ∧
    (category_dropdown_step df (selectFromChart s c)).selected_category = some c := by
  have hdedup : c ∈ (df.map (fun r => r.category)).dedup :=
    List.mem_dedup.mpr hmem
  have hall : c ∈ all_categories df := by
    unfold all_categories
    exact List.mem_cons_of_mem _ ((mem_sortStrings c _).mpr hdedup)
  have hidx : (all_categories df).indexOf c < (all_categories df).length :=
    List.indexOf_lt_length.mpr hall
  have hdisp : dropdown_displayed df (selectFromChart s c) = c := by
    unfold dropdown_displayed default_category_index selectFromChart
    simp only
    rw [if_pos ⟨hne, hdedup⟩]
    rw [List.getD_eq_getElem _ _ hidx]
    exact List.getElem_indexOf hidx
  refine ⟨hdisp, ?_⟩
  unfold category_dropdown_step
  rw [hdisp]
  unfold set_category
  rw [if_pos hsent]

/-- Witness for the amended C2 on the two-record example dataset. -/
theorem chart_selection_reflected_in_dropdown_witness :
    dropdown_displayed df8 (selectFromChart state0 "Tablet") = "Tablet" ∧
    (category_dropdown_step df8 (selectFromChart state0 "Tablet")).selected_category = some "Tablet" :=
  chart_selection_reflected_in_dropdown df8 state0 "Tablet"
    (by decide) (by decide) (by decide)
